import Mathlib

/-!
Shallow embedding of the Risk & Quality Issue Tracker analytics module
(`risk_analyzer.py`).  The incident table is a list of records; the pandas
grouped aggregations become explicit grouping by filtered sublists; floats
become exact rationals with numpy-style rounding (round half to even) made
explicit at the places the source calls `.round(...)`.
-/

/-- Floor of a rational, written so that it evaluates by kernel reduction;
`qfloor_eq` identifies it with `Int.floor`. -/
def qfloor (x : ℚ) : ℤ := x.num / (x.den : ℤ)

/-- Round a rational to the nearest integer, ties to even: the rounding mode
numpy applies in `DataFrame.round` / `Series.round`. -/
def rint (x : ℚ) : ℤ :=
  if x - qfloor x < 1 / 2 then qfloor x
  else if 1 / 2 < x - qfloor x then qfloor x + 1
  else if qfloor x % 2 = 0 then qfloor x else qfloor x + 1

/-- `.round(2)`: round to 2 decimal places. -/
def round2 (x : ℚ) : ℚ := (rint (x * 100) : ℚ) / 100

/-- `.round(1)`: round to 1 decimal place. -/
def round1 (x : ℚ) : ℚ := (rint (x * 10) : ℚ) / 10

/-- Arithmetic mean of a list of rationals (division by zero yields 0; the
engine only applies it to non-empty groups). -/
def meanQ (xs : List ℚ) : ℚ := xs.sum / xs.length

/-- Median as pandas computes it: middle element of the sorted list, or the
average of the two middle elements for even length. -/
def medianQ (xs : List ℚ) : ℚ :=
  let s := xs.insertionSort (· ≤ ·)
  let n := s.length
  if n % 2 = 1 then s.getD (n / 2) 0
  else (s.getD (n / 2 - 1) 0 + s.getD (n / 2) 0) / 2

/-- One row of the incident table. -/
structure IncidentRecord where
  incident_id : Nat
  category : String
  severity : String
  resolution_time_hours : ℚ
  recurrence : String
  root_cause : String
deriving DecidableEq, Repr

/-- The fixed severity weight table of `identify_high_risk_categories`;
`none` models the `NaN` that `Series.map` produces for an unmapped severity. -/
def severityWeight (s : String) : Option ℚ :=
  if s = "Critical" then some 4
  else if s = "High" then some 3
  else if s = "Medium" then some 2
  else if s = "Low" then some 1
  else none

/-- The records of one category: membership in the groupby category partition. -/
def groupOf (df : List IncidentRecord) (c : String) : List IncidentRecord :=
  df.filter (fun r => r.category == c)

/-- The distinct category keys, ascending, as `groupby` (with its default
`sort=True`) produces them. -/
def categoriesOf (df : List IncidentRecord) : List String :=
  ((df.map (fun r => r.category)).dedup).insertionSort (· ≤ ·)

/-- One row of the `category_analysis` frame, after the `.round(2)` at
aggregation time and the derived `Recurrence_Rate` / `Risk_Score` columns. -/
structure CategoryMetrics where
  category : String
  Incident_Count : Nat
  Avg_Severity_Score : Option ℚ
  Avg_Resolution_Hours : ℚ
  Recurring_Incidents : Nat
  Recurrence_Rate : ℚ
  Risk_Score : Option ℚ
deriving DecidableEq, Repr

/-- The aggregation of one category group: count, mean mapped severity
(skipping unmapped values, as pandas `mean` skips `NaN`; `none` when no value
maps), mean resolution hours, recurrence count — each mean rounded to 2dp —
then `Recurrence_Rate` (1dp) and the composite `Risk_Score` (2dp). -/
def categoryMetricsFor (df : List IncidentRecord) (c : String) : CategoryMetrics :=
  let g := groupOf df c
  let n := g.length
  let ws := g.filterMap (fun r => severityWeight r.severity)
  let sev : Option ℚ := if ws.isEmpty then none else some (round2 (ws.sum / (ws.length : ℚ)))
  let res : ℚ := round2 (meanQ (g.map (fun r => r.resolution_time_hours)))
  let rcount := g.countP (fun r => r.recurrence == "Yes")
  let rate : ℚ := round1 ((rcount : ℚ) / (n : ℚ) * 100)
  let score : Option ℚ :=
    sev.map (fun s => round2 ((n : ℚ) * s * (1 + rate / 100) + res / 10))
  ⟨c, n, sev, res, rcount, rate, score⟩

/-- The full `category_analysis` frame, one row per category key. -/
def categoryAnalysis (df : List IncidentRecord) : List CategoryMetrics :=
  (categoriesOf df).map (categoryMetricsFor df)

/-- All non-`NaN` risk scores, the series the percentile threshold is taken
over. -/
def riskScores (df : List IncidentRecord) : List ℚ :=
  (categoryAnalysis df).filterMap (fun m => m.Risk_Score)

/-- `Series.quantile(q)` with the default linear interpolation between order
statistics: position `q * (n - 1)` in the ascending sorted list, linearly
interpolated between the two neighbouring order statistics; `none` on an
empty series. -/
def quantile (xs : List ℚ) (q : ℚ) : Option ℚ :=
  if xs.isEmpty then none
  else
    let s := xs.insertionSort (· ≤ ·)
    let n := s.length
    let pos : ℚ := q * ((n : ℚ) - 1)
    let i : ℕ := (qfloor pos).toNat
    let j : ℕ := min (i + 1) (n - 1)
    some (s.getD i 0 + (pos - qfloor pos) * (s.getD j 0 - s.getD i 0))

/-- `identify_high_risk_categories`: rows whose `Risk_Score` is at least the
`p`-th percentile of all scores (a `NaN` score never qualifies, as in pandas),
sorted by `Risk_Score` descending.  The default for `p` in the source is 75. -/
def identify_high_risk_categories (df : List IncidentRecord) (p : ℚ) :
    List CategoryMetrics :=
  match quantile (riskScores df) (p / 100) with
  | none => []
  | some t =>
    ((categoryAnalysis df).filter (fun m =>
        match m.Risk_Score with
        | some sc => decide (t ≤ sc)
        | none => false)).insertionSort
      (fun a b => b.Risk_Score.getD 0 ≤ a.Risk_Score.getD 0)

/-- The data-model invariant of the spec: the severity of every record is drawn from the
fixed ordered set, i.e. it has a weight. -/
def ValidTable (df : List IncidentRecord) : Prop :=
  ∀ r ∈ df, (severityWeight r.severity).isSome = true

instance decidableValidTable (df : List IncidentRecord) : Decidable (ValidTable df) :=
  List.decidableBAll _ df

/-- One row of the by-severity resolution metrics of
`calculate_resolution_metrics`: mean and median resolution hours (2dp) and
the record count; `none` models the all-`NaN` row that `reindex` introduces
for a severity level absent from the data. -/
def bySeverityRow (df : List IncidentRecord) (s : String) : Option (ℚ × ℚ × Nat) :=
  let g := df.filter (fun r => r.severity == s)
  if g.isEmpty then none
  else
    let hrs := g.map (fun r => r.resolution_time_hours)
    some (round2 (meanQ hrs), round2 (medianQ hrs), g.length)

/-- The `by_severity` table of `calculate_resolution_metrics` after the
`reindex(severity_order)`: exactly one row per fixed severity level, in the
fixed display order. -/
def calculate_resolution_metrics_by_severity (df : List IncidentRecord) :
    List (String × Option (ℚ × ℚ × Nat)) :=
  ["Critical", "High", "Medium", "Low"].map (fun s => (s, bySeverityRow df s))

/-- De-duplication preserving first-seen order, as pandas `Series.unique`. -/
def dedupKeepFirst (xs : List String) : List String :=
  xs.foldl (fun acc a => if a ∈ acc then acc else acc ++ [a]) []

/-- The sorted (ascending) most-frequent values of a list: pandas
`Series.mode`. -/
def modeOf (xs : List String) : List String :=
  let m := xs.foldl (fun acc a => max acc (xs.count a)) 0
  ((xs.dedup).filter (fun a => xs.count a == m)).insertionSort (· ≤ ·)

/-- One row of the per-category recurrence table of
`detect_recurring_issues`. -/
structure CategoryRecurrence where
  category : String
  Recurring_Count : Nat
  Most_Common_Severity : String
  Avg_Resolution_Hours : ℚ
deriving DecidableEq, Repr

/-- One row of the root-cause table of `detect_recurring_issues`. -/
structure RootCauseRow where
  root_cause : String
  Occurrence_Count : Nat
  Affected_Categories : String
deriving DecidableEq, Repr

/-- The per-category analysis of recurring incidents: count, modal severity
(`x.mode()[0]`), mean resolution hours (2dp), sorted by count descending. -/
def category_recurrence (df : List IncidentRecord) : List CategoryRecurrence :=
  let rdf := df.filter (fun r => r.recurrence == "Yes")
  ((categoriesOf rdf).map (fun c =>
    let g := groupOf rdf c
    { category := c
      Recurring_Count := g.length
      Most_Common_Severity := (modeOf (g.map (fun r => r.severity))).headD ("N/A")
      Avg_Resolution_Hours := round2 (meanQ (g.map (fun r => r.resolution_time_hours))) }
  )).insertionSort (fun a b => b.Recurring_Count ≤ a.Recurring_Count)

/-- The root-cause analysis of recurring incidents: occurrence count and the
", "-joined first-seen-order unique affected categories, sorted by count
descending, truncated to the top 10. -/
def root_cause_analysis (df : List IncidentRecord) : List RootCauseRow :=
  let rdf := df.filter (fun r => r.recurrence == "Yes")
  ((((rdf.map (fun r => r.root_cause)).dedup).insertionSort (· ≤ ·)).map (fun rc =>
    let g := rdf.filter (fun r => r.root_cause == rc)
    { root_cause := rc
      Occurrence_Count := g.length
      Affected_Categories :=
        String.intercalate (", ") (dedupKeepFirst (g.map (fun r => r.category))) }
  )).insertionSort (fun a b => b.Occurrence_Count ≤ a.Occurrence_Count) |>.take 10

/-- `detect_recurring_issues`: a single empty table (`Sum.inl ()`, modelling
the bare `pd.DataFrame()` early return) when the table has no record with
recurrence `"Yes"`, otherwise the pair of the per-category recurrence table
and the root-cause table. -/
def detect_recurring_issues (df : List IncidentRecord) :
    Unit ⊕ (List CategoryRecurrence × List RootCauseRow) :=
  let rdf := df.filter (fun r => r.recurrence == "Yes")
  if rdf.isEmpty then Sum.inl ()
  else Sum.inr (category_recurrence df, root_cause_analysis df)

/-- The risk-level / likelihood tiering of `generate_risk_register`. -/
def riskLevelOf (risk_score : ℚ) : String × String :=
  if 50 ≤ risk_score then ("Critical", "Very High")
  else if 30 ≤ risk_score then ("High", "High")
  else if 15 ≤ risk_score then ("Medium", "Medium")
  else ("Low", "Low")

/-- The impact tiering of `generate_risk_register`. -/
def impactOf (avg_resolution : ℚ) : String :=
  if 40 ≤ avg_resolution then "Severe"
  else if 20 ≤ avg_resolution then "Major"
  else if 10 ≤ avg_resolution then "Moderate"
  else "Minor"

/-- The mitigation-strategy text of `generate_risk_register`: the "; "-joined
clauses whose conditions hold, or the single default clause. -/
def mitigationOf (recurrence_rate avg_resolution : ℚ) (incident_count : Nat) : String :=
  let ms :=
    (if 50 < recurrence_rate then
      ["Conduct root cause analysis to address systemic issues"] else []) ++
    (if 30 < avg_resolution then
      ["Review and optimize incident response procedures"] else []) ++
    (if 8 < incident_count then
      ["Implement preventive controls to reduce incident frequency"] else [])
  if ms.isEmpty then "Monitor trends and maintain current controls"
  else String.intercalate ("; ") ms

/-- The status field of `generate_risk_register`. -/
def statusOf (risk_level : String) : String :=
  if risk_level = "Critical" ∨ risk_level = "High" then "Active - Mitigation Required"
  else "Active - Monitoring"

/-- One risk-register entry (the fields the tiering rules populate). -/
structure RiskRegisterEntry where
  Risk_ID : Nat
  Category : String
  Risk_Level : String
  Likelihood : String
  Impact : String
  Risk_Score : ℚ
  Incident_Count : Nat
  Avg_Resolution_Hours : ℚ
  Recurrence_Rate : ℚ
  Mitigation_Strategy : String
  Status : String
deriving DecidableEq, Repr

/-- The register entry built from one high-risk row (rows reaching this point
always carry a computed score, so `getD 0` never fires on real input). -/
def mkRegisterEntry (i : Nat) (m : CategoryMetrics) : RiskRegisterEntry :=
  let sc := m.Risk_Score.getD 0
  let lv := riskLevelOf sc
  { Risk_ID := i
    Category := m.category
    Risk_Level := lv.1
    Likelihood := lv.2
    Impact := impactOf m.Avg_Resolution_Hours
    Risk_Score := sc
    Incident_Count := m.Incident_Count
    Avg_Resolution_Hours := m.Avg_Resolution_Hours
    Recurrence_Rate := m.Recurrence_Rate
    Mitigation_Strategy := mitigationOf m.Recurrence_Rate m.Avg_Resolution_Hours m.Incident_Count
    Status := statusOf lv.1 }

/-- The three observable outcomes of `generate_risk_register`: the
warn-and-`return`(-`None`) path, the `KeyError` raised at the Critical/High
count (line 515) when the entry list is empty so `pd.DataFrame([])` has no
`Risk_Level` column, and an actual returned register. -/
inductive RegisterResult where
  | noScoring : RegisterResult
  | keyError : RegisterResult
  | register : List RiskRegisterEntry → RegisterResult
deriving DecidableEq, Repr

/-- `generate_risk_register`: `noScoring` models the warn-and-`return`
path taken when the scoring stage has not stored `high_risk_categories` yet
(the caller receives `None`); with a stored high-risk table one entry is
built per row, numbered sequentially from 1 in the stored order — but when
the stored table is empty the loop builds no entries, `pd.DataFrame([])` is
a column-less frame, and the Critical/High count on it raises `KeyError`
before the return (`keyError`); only a non-empty table reaches `register`. -/
def generate_risk_register (high_risk : Option (List CategoryMetrics)) :
    RegisterResult :=
  match high_risk with
  | none => RegisterResult.noScoring
  | some l =>
    let entries := (List.range l.length).zip l |>.map (fun im => mkRegisterEntry (im.1 + 1) im.2)
    if entries.isEmpty then RegisterResult.keyError
    else RegisterResult.register entries

/-- The end-to-end example table of the spec: category "A" has 10 incidents,
all severity High, 3 recurring, resolution 12h each; category "B" has 2
incidents, severity Low, none recurring, resolution 1h each. -/
def exampleTable : List IncidentRecord :=
  [⟨1, "A", "High", 12, "Yes", "process gap"⟩,
   ⟨2, "A", "High", 12, "Yes", "process gap"⟩,
   ⟨3, "A", "High", 12, "Yes", "process gap"⟩,
   ⟨4, "A", "High", 12, "No", "training"⟩,
   ⟨5, "A", "High", 12, "No", "training"⟩,
   ⟨6, "A", "High", 12, "No", "training"⟩,
   ⟨7, "A", "High", 12, "No", "training"⟩,
   ⟨8, "A", "High", 12, "No", "training"⟩,
   ⟨9, "A", "High", 12, "No", "training"⟩,
   ⟨10, "A", "High", 12, "No", "training"⟩,
   ⟨11, "B", "Low", 1, "No", "other"⟩,
   ⟨12, "B", "Low", 1, "No", "other"⟩]

/-- A table carrying a severity value outside the fixed set. -/
def badSeverityTable : List IncidentRecord :=
  [⟨1, "x", "High", 2, "No", "r"⟩,
   ⟨2, "x", "Banana", 4, "No", "r"⟩]

/-- A single-record table with no Critical/Medium/Low records and no
recurring records. -/
def onlyHighTable : List IncidentRecord :=
  [⟨1, "a", "High", 5, "No", "x"⟩]

/-- The tiering test row of the spec: risk score 55, average resolution 45h,
recurrence rate 60%, 10 incidents (6 of them recurring). -/
def tieringExampleRow : CategoryMetrics :=
  { category := "Example"
    Incident_Count := 10
    Avg_Severity_Score := some 3
    Avg_Resolution_Hours := 45
    Recurring_Incidents := 6
    Recurrence_Rate := 60
    Risk_Score := some 55 }


/-! ### Helper lemmas -/

theorem qfloor_eq (x : ℚ) : qfloor x = ⌊x⌋ := Rat.floor_def.symm

theorem floor_le_rint (x : ℚ) : ⌊x⌋ ≤ rint x := by
  unfold rint
  rw [qfloor_eq]
  split_ifs <;> omega

theorem rint_le_ceil (x : ℚ) : rint x ≤ ⌈x⌉ := by
  unfold rint
  rw [qfloor_eq]
  have hfc : ⌊x⌋ ≤ ⌈x⌉ := Int.floor_le_ceil x
  have hfx : (⌊x⌋ : ℚ) ≤ x := Int.floor_le x
  split_ifs with h1 h2 h3
  · exact hfc
  · have : (⌊x⌋ : ℚ) < x := by linarith
    exact Int.lt_ceil.mpr this
  · exact hfc
  · have hx : (1 : ℚ) / 2 = x - ⌊x⌋ := le_antisymm (le_of_not_lt h1) (le_of_not_lt h2)
    have : (⌊x⌋ : ℚ) < x := by linarith
    exact Int.lt_ceil.mpr this

theorem round1_nonneg {x : ℚ} (hx : 0 ≤ x) : 0 ≤ round1 x := by
  unfold round1
  have h1 : (0 : ℤ) ≤ ⌊x * 10⌋ := Int.floor_nonneg.mpr (by linarith)
  have h2 : (0 : ℤ) ≤ rint (x * 10) := le_trans h1 (floor_le_rint _)
  have : (0 : ℚ) ≤ (rint (x * 10) : ℚ) := by exact_mod_cast h2
  linarith

theorem round1_le_100 {x : ℚ} (hx : x ≤ 100) : round1 x ≤ 100 := by
  unfold round1
  have h1 : ⌈x * 10⌉ ≤ (1000 : ℤ) := by
    have : x * 10 ≤ ((1000 : ℤ) : ℚ) := by push_cast; linarith
    exact Int.ceil_le.mpr this
  have h2 : rint (x * 10) ≤ (1000 : ℤ) := le_trans (rint_le_ceil _) h1
  have : (rint (x * 10) : ℚ) ≤ 1000 := by exact_mod_cast h2
  linarith

theorem mem_categoriesOf {df : List IncidentRecord} {c : String} :
    c ∈ categoriesOf df ↔ ∃ r ∈ df, r.category = c := by
  unfold categoriesOf
  rw [(List.perm_insertionSort _ _).mem_iff, List.mem_dedup, List.mem_map]

theorem groupOf_ne_nil {df : List IncidentRecord} {c : String}
    (h : c ∈ categoriesOf df) : groupOf df c ≠ [] := by
  obtain ⟨r, hr, hrc⟩ := mem_categoriesOf.mp h
  have : r ∈ groupOf df c := by
    unfold groupOf
    rw [List.mem_filter]
    exact ⟨hr, by simp [hrc]⟩
  exact List.ne_nil_of_mem this

theorem bySeverityRow_eq_none {df : List IncidentRecord} {s : String} :
    bySeverityRow df s = none ↔ ∀ r ∈ df, r.severity ≠ s := by
  unfold bySeverityRow
  by_cases h : (df.filter (fun r => r.severity == s)).isEmpty
  · simp only [h, if_true]
    rw [List.isEmpty_iff] at h
    rw [List.filter_eq_nil_iff] at h
    simp only [beq_iff_eq] at h
    simpa using h
  · simp only [h, if_false]
    constructor
    · intro hc
      exact absurd hc (by simp)
    · intro hall
      exfalso
      apply h
      rw [List.isEmpty_iff, List.filter_eq_nil_iff]
      intro r hr
      simp only [beq_iff_eq]
      exact hall r hr

/-! ### Claim theorems -/

/-- C4 (code behaviour at the failing input): a table containing a record
with the unmapped severity "Banana" does NOT fail the aggregation; the
unmapped record is silently skipped when the severity mean is taken (pandas
`map` produces `NaN`, `mean` skips it), and a full metrics row is produced
(mean severity 3 from the one mapped record, risk score 6.3). -/
theorem c4_unmapped_severity_silently_skipped :
    (categoryAnalysis badSeverityTable).map
        (fun m => (m.category, m.Avg_Severity_Score, m.Risk_Score)) =
      [("x", some 3, some (63 / 10))] := by
  with_unfolding_all decide

/-- C5 counterexample: invoked before the scoring stage has produced
high-risk categories, `generate_risk_register` emits a null register — the
function prints a warning and returns `None` (`noScoring`); no error
propagates to the caller in that case, contrary to the claim that no empty
or null register is emitted and that the failure propagates. -/
theorem c5_null_register_counterexample :
    generate_risk_register none = RegisterResult.noScoring := rfl

/-- C5 amended: invoking `generate_risk_register` before the scoring stage
yields the distinguished null result `None` rather than a register, with no
propagating error; once the scoring stage has stored a high-risk table that
null result never occurs — the outcome is then either the `KeyError` raised
on a stored-but-empty table or an actual register. -/
theorem c5_register_before_scoring_returns_none :
    generate_risk_register none = RegisterResult.noScoring ∧
      ∀ l, (generate_risk_register (some l) = RegisterResult.keyError ∨
        ∃ es, generate_risk_register (some l) = RegisterResult.register es) := by
  refine ⟨rfl, fun l => ?_⟩
  simp only [generate_risk_register]
  by_cases h : (((List.range l.length).zip l).map (fun im => mkRegisterEntry (im.1 + 1) im.2)).isEmpty
  · rw [if_pos h]
    exact Or.inl rfl
  · rw [if_neg h]
    exact Or.inr ⟨_, rfl⟩

/-- C7 counterexample: on a table whose only record has severity High, the
`reindex` rows for the absent severities Critical, Medium and Low carry no
data at all (`none`, modelling the all-`NaN` row pandas produces) — in
particular the Critical row does not have incident count 0 as claimed. -/
theorem c7_absent_severity_row_is_nan :
    calculate_resolution_metrics_by_severity onlyHighTable =
      [("Critical", none), ("High", some (5, 5, 1)), ("Medium", none), ("Low", none)] := by
  with_unfolding_all decide

/-- C7 amended: the by-severity metrics contain exactly one row for each of
Critical, High, Medium, Low in that fixed order, and a severity level absent
from the data still appears — but as a row with all-missing (`NaN`) values
rather than with incident count 0. -/
theorem c7_fixed_severity_rows (df : List IncidentRecord) :
    (calculate_resolution_metrics_by_severity df).map Prod.fst =
        ["Critical", "High", "Medium", "Low"] ∧
      ∀ p ∈ calculate_resolution_metrics_by_severity df,
        (p.2 = none ↔ ∀ r ∈ df, r.severity ≠ p.1) := by
  constructor
  · rfl
  · intro p hp
    simp only [calculate_resolution_metrics_by_severity, List.mem_map,
      List.mem_cons, List.not_mem_nil, or_false] at hp
    obtain ⟨s, hs, rfl⟩ := hp
    rcases hs with rfl | rfl | rfl | rfl <;> exact bySeverityRow_eq_none

/-- C7 witness: the amended theorem applied to the concrete one-record table,
at its Critical row. -/
theorem c7_fixed_severity_rows_witness :
    (("Critical", (none : Option (ℚ × ℚ × Nat))).2 = none ↔
      ∀ r ∈ onlyHighTable, r.severity ≠ ("Critical", (none : Option (ℚ × ℚ × Nat))).1) :=
  (c7_fixed_severity_rows onlyHighTable).2 _ (by with_unfolding_all decide)

/-- C10: `detect_recurring_issues` returns the single empty table exactly
when no record has recurrence "Yes", and returns the pair of the
per-category recurrence table and the root-cause table exactly when some
record does, so the result shape distinguishes the two cases. -/
theorem c10_detect_recurring_shape (df : List IncidentRecord) :
    (detect_recurring_issues df = Sum.inl () ↔ ∀ r ∈ df, r.recurrence ≠ "Yes") ∧
      ((∃ a b, detect_recurring_issues df = Sum.inr (a, b)) ↔
        ∃ r ∈ df, r.recurrence = "Yes") := by
  simp only [detect_recurring_issues]
  by_cases h : (df.filter (fun r => r.recurrence == "Yes")).isEmpty
  · rw [if_pos h]
    have hall : ∀ r ∈ df, r.recurrence ≠ "Yes" := by
      rw [List.isEmpty_iff, List.filter_eq_nil_iff] at h
      simpa using h
    refine ⟨⟨fun _ => hall, fun _ => rfl⟩, ?_, ?_⟩
    · rintro ⟨a, b, hab⟩
      exact Sum.noConfusion hab
    · rintro ⟨r, hr, hy⟩
      exact absurd hy (hall r hr)
  · rw [if_neg h]
    have hex : ∃ r ∈ df, r.recurrence = "Yes" := by
      have h2 : df.filter (fun r => r.recurrence == "Yes") ≠ [] := by
        intro hnil
        apply h
        rw [hnil]
        rfl
      obtain ⟨r, hr⟩ := List.exists_mem_of_ne_nil _ h2
      have hm := List.mem_filter.mp hr
      exact ⟨r, hm.1, by simpa using hm.2⟩
    refine ⟨⟨fun hc => Sum.noConfusion hc, ?_⟩, fun _ => hex, fun _ => ⟨_, _, rfl⟩⟩
    intro hall
    obtain ⟨r, hr, hy⟩ := hex
    exact absurd hy (hall r hr)

/-- C10 witness: the shape theorem applied to the concrete example table
(which does contain recurring records). -/
theorem c10_detect_recurring_shape_witness :
    (detect_recurring_issues exampleTable = Sum.inl () ↔
        ∀ r ∈ exampleTable, r.recurrence ≠ "Yes") ∧
      ((∃ a b, detect_recurring_issues exampleTable = Sum.inr (a, b)) ↔
        ∃ r ∈ exampleTable, r.recurrence = "Yes") :=
  c10_detect_recurring_shape exampleTable

/-- The status rule of `generate_risk_register`, as an iff. -/
theorem statusOf_iff (L : String) :
    statusOf L = "Active - Mitigation Required" ↔ (L = "Critical" ∨ L = "High") := by
  by_cases h : L = "Critical" ∨ L = "High"
  · simp [statusOf, h]
  · simp only [statusOf, if_neg h]
    constructor
    · intro hc
      exact absurd hc (by decide)
    · intro hc
      exact absurd hc h

set_option maxRecDepth 100000 in
/-- C1: the metrics of every category follow the composite formula — the
recurrence rate is `recurring / count * 100` rounded to 1dp, and the risk
score is `count * avg_severity * (1 + rate / 100) + avg_resolution / 10`
rounded to 2dp, computed from the 2dp-rounded severity and resolution means;
on the end-to-end example of the spec, category A scores 40.2 and category B
scores 2.1. -/
theorem c1_risk_score_formula :
    (∀ df : List IncidentRecord, ValidTable df → ∀ m ∈ categoryAnalysis df,
      ∃ s, m.Avg_Severity_Score = some s ∧
        m.Recurrence_Rate =
          round1 ((m.Recurring_Incidents : ℚ) / (m.Incident_Count : ℚ) * 100) ∧
        m.Risk_Score =
          some (round2 ((m.Incident_Count : ℚ) * s * (1 + m.Recurrence_Rate / 100) +
            m.Avg_Resolution_Hours / 10))) ∧
      (categoryAnalysis exampleTable).map (fun m => (m.category, m.Risk_Score)) =
        [("A", some (201 / 5)), ("B", some (21 / 10))] := by
  constructor
  · intro df hv m hm
    obtain ⟨c, hc, rfl⟩ := List.mem_map.mp hm
    have hg : groupOf df c ≠ [] := groupOf_ne_nil hc
    obtain ⟨r, hr⟩ := List.exists_mem_of_ne_nil _ hg
    have hrdf : r ∈ df := (List.mem_filter.mp hr).1
    obtain ⟨w, hw⟩ := Option.isSome_iff_exists.mp (hv r hrdf)
    have hws : w ∈ (groupOf df c).filterMap (fun r => severityWeight r.severity) :=
      List.mem_filterMap.mpr ⟨r, hr, hw⟩
    have hne : ((groupOf df c).filterMap (fun r => severityWeight r.severity)).isEmpty = false := by
      rw [List.isEmpty_eq_false]
      exact List.ne_nil_of_mem hws
    refine ⟨round2 ((((groupOf df c).filterMap (fun r => severityWeight r.severity)).sum) /
      ((((groupOf df c).filterMap (fun r => severityWeight r.severity)).length : ℚ))), ?_, ?_, ?_⟩
    · simp [categoryMetricsFor, hne]
    · simp [categoryMetricsFor]
    · simp [categoryMetricsFor, hne]
  · with_unfolding_all decide

/-- C1 witness: the formula theorem applied to the example table at the
row of category A. -/
theorem c1_risk_score_formula_witness :
    ValidTable exampleTable ∧
      categoryMetricsFor exampleTable ("A") ∈ categoryAnalysis exampleTable ∧
      ∃ s, (categoryMetricsFor exampleTable ("A")).Avg_Severity_Score = some s ∧
        (categoryMetricsFor exampleTable ("A")).Recurrence_Rate =
          round1 (((categoryMetricsFor exampleTable ("A")).Recurring_Incidents : ℚ) /
            ((categoryMetricsFor exampleTable ("A")).Incident_Count : ℚ) * 100) ∧
        (categoryMetricsFor exampleTable ("A")).Risk_Score =
          some (round2 (((categoryMetricsFor exampleTable ("A")).Incident_Count : ℚ) * s *
            (1 + (categoryMetricsFor exampleTable ("A")).Recurrence_Rate / 100) +
            (categoryMetricsFor exampleTable ("A")).Avg_Resolution_Hours / 10)) :=
  ⟨by with_unfolding_all decide, by with_unfolding_all decide,
    c1_risk_score_formula.1 exampleTable (by with_unfolding_all decide) _
      (by with_unfolding_all decide)⟩

set_option maxRecDepth 100000 in
/-- C3: the register entry fields are the pure tiering functions of the
score, resolution time, recurrence rate and incident count — the
inclusive-lower-bound risk-level/likelihood and impact tables, the
"; "-joined mitigation clauses with a single default when no condition
holds, and the status rule tied to Critical/High — and the test row of the spec
(score 55, resolution 45h, recurrence 60%, count 10) yields Critical, Very
High, Severe and all three mitigation clauses. -/
theorem c3_register_tiering :
    (∀ (m : CategoryMetrics) (i : Nat),
      (50 ≤ m.Risk_Score.getD 0 →
        (mkRegisterEntry i m).Risk_Level = "Critical" ∧
          (mkRegisterEntry i m).Likelihood = "Very High") ∧
      (30 ≤ m.Risk_Score.getD 0 ∧ m.Risk_Score.getD 0 < 50 →
        (mkRegisterEntry i m).Risk_Level = "High" ∧
          (mkRegisterEntry i m).Likelihood = "High") ∧
      (15 ≤ m.Risk_Score.getD 0 ∧ m.Risk_Score.getD 0 < 30 →
        (mkRegisterEntry i m).Risk_Level = "Medium" ∧
          (mkRegisterEntry i m).Likelihood = "Medium") ∧
      (m.Risk_Score.getD 0 < 15 →
        (mkRegisterEntry i m).Risk_Level = "Low" ∧
          (mkRegisterEntry i m).Likelihood = "Low") ∧
      (40 ≤ m.Avg_Resolution_Hours → (mkRegisterEntry i m).Impact = "Severe") ∧
      (20 ≤ m.Avg_Resolution_Hours ∧ m.Avg_Resolution_Hours < 40 →
        (mkRegisterEntry i m).Impact = "Major") ∧
      (10 ≤ m.Avg_Resolution_Hours ∧ m.Avg_Resolution_Hours < 20 →
        (mkRegisterEntry i m).Impact = "Moderate") ∧
      (m.Avg_Resolution_Hours < 10 → (mkRegisterEntry i m).Impact = "Minor") ∧
      (50 < m.Recurrence_Rate ∨ 30 < m.Avg_Resolution_Hours ∨ 8 < m.Incident_Count →
        (mkRegisterEntry i m).Mitigation_Strategy =
          String.intercalate ("; ")
            ((if 50 < m.Recurrence_Rate then
                ["Conduct root cause analysis to address systemic issues"] else []) ++
             (if 30 < m.Avg_Resolution_Hours then
                ["Review and optimize incident response procedures"] else []) ++
             (if 8 < m.Incident_Count then
                ["Implement preventive controls to reduce incident frequency"] else []))) ∧
      (¬ 50 < m.Recurrence_Rate ∧ ¬ 30 < m.Avg_Resolution_Hours ∧ ¬ 8 < m.Incident_Count →
        (mkRegisterEntry i m).Mitigation_Strategy =
          "Monitor trends and maintain current controls") ∧
      ((mkRegisterEntry i m).Status = "Active - Mitigation Required" ↔
        ((mkRegisterEntry i m).Risk_Level = "Critical" ∨
          (mkRegisterEntry i m).Risk_Level = "High"))) ∧
    ((mkRegisterEntry 1 tieringExampleRow).Risk_Level = "Critical" ∧
      (mkRegisterEntry 1 tieringExampleRow).Likelihood = "Very High" ∧
      (mkRegisterEntry 1 tieringExampleRow).Impact = "Severe" ∧
      (mkRegisterEntry 1 tieringExampleRow).Mitigation_Strategy =
        "Conduct root cause analysis to address systemic issues; " ++
          "Review and optimize incident response procedures; " ++
          "Implement preventive controls to reduce incident frequency") := by
  constructor
  · intro m i
    refine ⟨?_, ?_, ?_, ?_, ?_, ?_, ?_, ?_, ?_, ?_, ?_⟩
    · intro h
      constructor <;> simp [mkRegisterEntry, riskLevelOf, if_pos h]
    · rintro ⟨h1, h2⟩
      constructor <;>
        simp [mkRegisterEntry, riskLevelOf, if_neg (not_le.mpr h2), if_pos h1]
    · rintro ⟨h1, h2⟩
      constructor <;>
        simp [mkRegisterEntry, riskLevelOf, if_neg (not_le.mpr (by linarith : m.Risk_Score.getD 0 < 50)),
          if_neg (not_le.mpr h2), if_pos h1]
    · intro h
      constructor <;>
        simp [mkRegisterEntry, riskLevelOf, if_neg (not_le.mpr (by linarith : m.Risk_Score.getD 0 < 50)),
          if_neg (not_le.mpr (by linarith : m.Risk_Score.getD 0 < 30)), if_neg (not_le.mpr h)]
    · intro h
      simp [mkRegisterEntry, impactOf, if_pos h]
    · rintro ⟨h1, h2⟩
      simp [mkRegisterEntry, impactOf, if_neg (not_le.mpr h2), if_pos h1]
    · rintro ⟨h1, h2⟩
      simp [mkRegisterEntry, impactOf, if_neg (not_le.mpr (by linarith : m.Avg_Resolution_Hours < 40)),
        if_neg (not_le.mpr h2), if_pos h1]
    · intro h
      simp [mkRegisterEntry, impactOf, if_neg (not_le.mpr (by linarith : m.Avg_Resolution_Hours < 40)),
        if_neg (not_le.mpr (by linarith : m.Avg_Resolution_Hours < 20)), if_neg (not_le.mpr h)]
    · intro h
      by_cases h1 : 50 < m.Recurrence_Rate <;>
        by_cases h2 : 30 < m.Avg_Resolution_Hours <;>
        by_cases h3 : 8 < m.Incident_Count <;>
        first
        | tauto
        | simp [mkRegisterEntry, mitigationOf, h1, h2, h3]
    · rintro ⟨h1, h2, h3⟩
      simp [mkRegisterEntry, mitigationOf, h1, h2, h3]
    · exact statusOf_iff _
  · refine ⟨?_, ?_, ?_, ?_⟩ <;> with_unfolding_all decide

/-- C3 witness: the tiering theorem applied to the concrete test row of the spec,
with the Critical-branch hypothesis discharged at score 55. -/
theorem c3_register_tiering_witness :
    (mkRegisterEntry 1 tieringExampleRow).Risk_Level = "Critical" ∧
      (mkRegisterEntry 1 tieringExampleRow).Likelihood = "Very High" :=
  (c3_register_tiering.1 tieringExampleRow 1).1 (by with_unfolding_all decide)

/-- Bounds for the rounded recurrence rate of a group with `cnt ≤ n`. -/
theorem rate_bounds (cnt n : ℕ) (hcn : cnt ≤ n) :
    0 ≤ round1 ((cnt : ℚ) / (n : ℚ) * 100) ∧
      round1 ((cnt : ℚ) / (n : ℚ) * 100) ≤ 100 := by
  have hx0 : 0 ≤ (cnt : ℚ) / (n : ℚ) * 100 := by positivity
  have hx1 : (cnt : ℚ) / (n : ℚ) * 100 ≤ 100 := by
    rcases Nat.eq_zero_or_pos n with hn | hn
    · subst hn
      norm_num
    · have hpos : (0 : ℚ) < (n : ℚ) := by exact_mod_cast hn
      have hle : (cnt : ℚ) ≤ (n : ℚ) := by exact_mod_cast hcn
      have : (cnt : ℚ) / (n : ℚ) ≤ 1 := (div_le_one hpos).mpr hle
      nlinarith
  exact ⟨round1_nonneg hx0, round1_le_100 hx1⟩

/-- C8: in every computed category metrics row, the recurrence rate lies
between 0 and 100 (even after its 1dp rounding) and the recurring-incident
count never exceeds the incident count. -/
theorem c8_recurrence_invariants (df : List IncidentRecord) (m : CategoryMetrics)
    (hm : m ∈ categoryAnalysis df) :
    0 ≤ m.Recurrence_Rate ∧ m.Recurrence_Rate ≤ 100 ∧
      m.Recurring_Incidents ≤ m.Incident_Count := by
  obtain ⟨c, _, rfl⟩ := List.mem_map.mp hm
  have hcn : ((groupOf df c).countP (fun r => r.recurrence == "Yes")) ≤
      (groupOf df c).length := List.countP_le_length _
  have hb := rate_bounds _ _ hcn
  exact ⟨hb.1, hb.2, hcn⟩

/-- C8 witness: the invariant applied to the example table at the row of
category A. -/
theorem c8_recurrence_invariants_witness :
    categoryMetricsFor exampleTable ("A") ∈ categoryAnalysis exampleTable ∧
      (0 ≤ (categoryMetricsFor exampleTable ("A")).Recurrence_Rate ∧
        (categoryMetricsFor exampleTable ("A")).Recurrence_Rate ≤ 100 ∧
        (categoryMetricsFor exampleTable ("A")).Recurring_Incidents ≤
          (categoryMetricsFor exampleTable ("A")).Incident_Count) :=
  ⟨by with_unfolding_all decide,
    c8_recurrence_invariants exampleTable _ (by with_unfolding_all decide)⟩

/-- Membership in the high-risk result, characterised by the percentile
threshold. -/
theorem mem_identify_high_risk_iff (df : List IncidentRecord) (p : ℚ)
    (m : CategoryMetrics) :
    m ∈ identify_high_risk_categories df p ↔
      (m ∈ categoryAnalysis df ∧
        ∃ t sc, quantile (riskScores df) (p / 100) = some t ∧
          m.Risk_Score = some sc ∧ t ≤ sc) := by
  unfold identify_high_risk_categories
  cases hq : quantile (riskScores df) (p / 100) with
  | none =>
    simp [hq]
  | some t =>
    rw [(List.perm_insertionSort _ _).mem_iff, List.mem_filter]
    constructor
    · rintro ⟨hca, hpred⟩
      rcases hs : m.Risk_Score with _ | sc
      · rw [hs] at hpred
        simp at hpred
      · rw [hs] at hpred
        simp only [decide_eq_true_eq] at hpred
        exact ⟨hca, t, sc, rfl, rfl, hpred⟩
    · rintro ⟨hca, t', sc, ht, hs, hle⟩
      have htt : t = t' := Option.some.inj ht
      refine ⟨hca, ?_⟩
      rw [hs]
      simp only [decide_eq_true_eq]
      rw [htt]
      exact hle

/-- C2: for every threshold percentile in [0, 100], membership in the
high-risk result is exactly "risk score at least the linearly interpolated
`p`-th percentile of the scores of all categories" — the comparison is inclusive,
so ties at the threshold are all included. -/
theorem c2_high_risk_iff_above_threshold (df : List IncidentRecord) (p : ℚ)
    (_h0 : 0 ≤ p) (_h1 : p ≤ 100) (m : CategoryMetrics) :
    m ∈ identify_high_risk_categories df p ↔
      (m ∈ categoryAnalysis df ∧
        ∃ t sc, quantile (riskScores df) (p / 100) = some t ∧
          m.Risk_Score = some sc ∧ t ≤ sc) :=
  mem_identify_high_risk_iff df p m

/-- C2 witness: the membership characterisation applied to the example table
with the default percentile 75 at the row of category A. -/
theorem c2_high_risk_iff_above_threshold_witness :
    (0 : ℚ) ≤ 75 ∧ (75 : ℚ) ≤ 100 ∧
      (categoryMetricsFor exampleTable ("A") ∈
          identify_high_risk_categories exampleTable 75 ↔
        (categoryMetricsFor exampleTable ("A") ∈ categoryAnalysis exampleTable ∧
          ∃ t sc, quantile (riskScores exampleTable) (75 / 100) = some t ∧
            (categoryMetricsFor exampleTable ("A")).Risk_Score = some sc ∧ t ≤ sc)) :=
  ⟨by norm_num, by norm_num,
    c2_high_risk_iff_above_threshold exampleTable 75 (by norm_num) (by norm_num) _⟩

/-- In a sorted list, earlier entries are at most later entries. -/
theorem sorted_getD_le {s : List ℚ} (hs : List.Sorted (· ≤ ·) s) {i j : ℕ}
    (hij : i ≤ j) (hj : j < s.length) : s.getD i 0 ≤ s.getD j 0 := by
  rcases Nat.eq_or_lt_of_le hij with rfl | hlt
  · exact le_refl _
  · have hi : i < s.length := lt_trans hlt hj
    rw [List.getD_eq_getElem s 0 hi, List.getD_eq_getElem s 0 hj]
    exact hs.rel_get_of_lt (Fin.mk_lt_mk.mpr hlt)

/-- The linear interpolation between two order statistics at a position in
`[0, n - 1]` is at most the last (largest) entry of the sorted list. -/
theorem interp_le_last (s : List ℚ) (hsort : List.Sorted (· ≤ ·) s)
    (hpos : 0 < s.length) (pos : ℚ) (hpos0 : 0 ≤ pos)
    (hposle : pos ≤ (s.length : ℚ) - 1) :
    s.getD ((qfloor pos).toNat) 0 +
        (pos - (qfloor pos : ℚ)) *
          (s.getD (min ((qfloor pos).toNat + 1) (s.length - 1)) 0 -
            s.getD ((qfloor pos).toNat) 0) ≤
      s.getD (s.length - 1) 0 := by
  rw [qfloor_eq]
  have hfl0 : 0 ≤ ⌊pos⌋ := Int.floor_nonneg.mpr hpos0
  have hfl1 : ⌊pos⌋ ≤ (s.length : ℤ) - 1 := by
    have h1 : pos ≤ (((s.length : ℤ) - 1 : ℤ) : ℚ) := by push_cast; linarith
    have h2 := Int.floor_mono h1
    rwa [Int.floor_intCast] at h2
  have hi_le : (⌊pos⌋).toNat ≤ s.length - 1 := by omega
  have hj_le : min ((⌊pos⌋).toNat + 1) (s.length - 1) ≤ s.length - 1 :=
    Nat.min_le_right _ _
  have hj_lt : min ((⌊pos⌋).toNat + 1) (s.length - 1) < s.length := by omega
  have hij : (⌊pos⌋).toNat ≤ min ((⌊pos⌋).toNat + 1) (s.length - 1) :=
    Nat.le_min.mpr ⟨by omega, hi_le⟩
  have hab : s.getD ((⌊pos⌋).toNat) 0 ≤
      s.getD (min ((⌊pos⌋).toNat + 1) (s.length - 1)) 0 :=
    sorted_getD_le hsort hij hj_lt
  have hbv : s.getD (min ((⌊pos⌋).toNat + 1) (s.length - 1)) 0 ≤
      s.getD (s.length - 1) 0 :=
    sorted_getD_le hsort hj_le (by omega)
  have hfr0 : 0 ≤ pos - (⌊pos⌋ : ℚ) := by
    have := Int.floor_le pos
    linarith
  have hfr1 : pos - (⌊pos⌋ : ℚ) ≤ 1 := by
    have := Int.lt_floor_add_one pos
    linarith
  have hmul : (pos - (⌊pos⌋ : ℚ)) *
      (s.getD (min ((⌊pos⌋).toNat + 1) (s.length - 1)) 0 -
        s.getD ((⌊pos⌋).toNat) 0) ≤
      s.getD (min ((⌊pos⌋).toNat + 1) (s.length - 1)) 0 -
        s.getD ((⌊pos⌋).toNat) 0 :=
    mul_le_of_le_one_left (sub_nonneg.mpr hab) hfr1
  linarith

/-- On a non-empty series and a position fraction in `[0, 1]`, the quantile
exists and is at most some member of the series. -/
theorem quantile_le_max (xs : List ℚ) (q : ℚ) (hne : xs ≠ [])
    (hq0 : 0 ≤ q) (hq1 : q ≤ 1) :
    ∃ t v, quantile xs q = some t ∧ v ∈ xs ∧ t ≤ v := by
  have hemp : ¬ (xs.isEmpty = true) := by
    simp [List.isEmpty_eq_false.mpr hne]
  have hperm : List.Perm (xs.insertionSort (· ≤ ·)) xs := List.perm_insertionSort _ _
  have hsort : List.Sorted (· ≤ ·) (xs.insertionSort (· ≤ ·)) :=
    List.sorted_insertionSort _ _
  have hpos : 0 < (xs.insertionSort (· ≤ ·)).length := by
    rw [hperm.length_eq]
    exact List.length_pos.mpr hne
  have hn1 : (1 : ℚ) ≤ ((xs.insertionSort (· ≤ ·)).length : ℚ) := by
    exact_mod_cast hpos
  refine ⟨(xs.insertionSort (· ≤ ·)).getD
      ((qfloor (q * (((xs.insertionSort (· ≤ ·)).length : ℚ) - 1))).toNat) 0 +
      (q * (((xs.insertionSort (· ≤ ·)).length : ℚ) - 1) -
        ((qfloor (q * (((xs.insertionSort (· ≤ ·)).length : ℚ) - 1)) : ℤ) : ℚ)) *
        ((xs.insertionSort (· ≤ ·)).getD
            (min ((qfloor (q * (((xs.insertionSort (· ≤ ·)).length : ℚ) - 1))).toNat + 1)
              ((xs.insertionSort (· ≤ ·)).length - 1)) 0 -
          (xs.insertionSort (· ≤ ·)).getD
            ((qfloor (q * (((xs.insertionSort (· ≤ ·)).length : ℚ) - 1))).toNat) 0),
    (xs.insertionSort (· ≤ ·)).getD ((xs.insertionSort (· ≤ ·)).length - 1) 0,
    ?_, ?_, ?_⟩
  · unfold quantile
    rw [if_neg hemp]
  · rw [← hperm.mem_iff]
    rw [List.getD_eq_getElem _ 0 (by omega)]
    exact List.getElem_mem _
  · exact interp_le_last _ hsort hpos _
      (mul_nonneg hq0 (by linarith))
      (by
        have h2 : q * (((xs.insertionSort (· ≤ ·)).length : ℚ) - 1) ≤
            1 * (((xs.insertionSort (· ≤ ·)).length : ℚ) - 1) :=
          mul_le_mul_of_nonneg_right hq1 (by linarith)
        linarith)

/-- The scoring of a category present in a valid table always produces a
real (non-`NaN`) risk score. -/
theorem score_isSome_of_valid {df : List IncidentRecord} {c : String}
    (hv : ValidTable df) (hc : c ∈ categoriesOf df) :
    ∃ sc, (categoryMetricsFor df c).Risk_Score = some sc := by
  have hg : groupOf df c ≠ [] := groupOf_ne_nil hc
  obtain ⟨r, hr⟩ := List.exists_mem_of_ne_nil _ hg
  have hrdf : r ∈ df := (List.mem_filter.mp hr).1
  obtain ⟨w, hw⟩ := Option.isSome_iff_exists.mp (hv r hrdf)
  have hws : w ∈ (groupOf df c).filterMap (fun r => severityWeight r.severity) :=
    List.mem_filterMap.mpr ⟨r, hr, hw⟩
  have hne : ((groupOf df c).filterMap (fun r => severityWeight r.severity)).isEmpty = false := by
    rw [List.isEmpty_eq_false]
    exact List.ne_nil_of_mem hws
  have hsome : (categoryMetricsFor df c).Risk_Score.isSome = true := by
    simp [categoryMetricsFor, hne]
  exact Option.isSome_iff_exists.mp hsome

/-- C9: on a non-empty valid table, for any threshold percentile in
[0, 100], the high-risk set is non-empty — the percentile of finitely many
scores is at most their maximum and the comparison is inclusive, so a
maximal-score category always qualifies. -/
theorem c9_high_risk_nonempty (df : List IncidentRecord) (p : ℚ)
    (hdf : df ≠ []) (hv : ValidTable df) (h0 : 0 ≤ p) (h1 : p ≤ 100) :
    identify_high_risk_categories df p ≠ [] := by
  have hcat : categoriesOf df ≠ [] := by
    obtain ⟨r, hr⟩ := List.exists_mem_of_ne_nil _ hdf
    exact List.ne_nil_of_mem (mem_categoriesOf.mpr ⟨r, hr, rfl⟩)
  have hscores : riskScores df ≠ [] := by
    obtain ⟨c, hc⟩ := List.exists_mem_of_ne_nil _ hcat
    obtain ⟨sc, hsc⟩ := score_isSome_of_valid hv hc
    exact List.ne_nil_of_mem
      (List.mem_filterMap.mpr ⟨categoryMetricsFor df c, List.mem_map_of_mem _ hc, hsc⟩)
  obtain ⟨t, v, hqt, hvmem, htv⟩ :=
    quantile_le_max (riskScores df) (p / 100) hscores (by positivity)
      ((div_le_one (by norm_num)).mpr h1)
  obtain ⟨m, hmca, hmv⟩ := List.mem_filterMap.mp hvmem
  have hmem : m ∈ identify_high_risk_categories df p :=
    (mem_identify_high_risk_iff df p m).mpr ⟨hmca, t, v, hqt, hmv, htv⟩
  exact List.ne_nil_of_mem hmem

/-- C9 witness: the non-emptiness theorem applied to the example table at
the default percentile 75. -/
theorem c9_high_risk_nonempty_witness :
    exampleTable ≠ [] ∧ ValidTable exampleTable ∧ (0 : ℚ) ≤ 75 ∧ (75 : ℚ) ≤ 100 ∧
      identify_high_risk_categories exampleTable 75 ≠ [] :=
  ⟨by with_unfolding_all decide, by with_unfolding_all decide, by norm_num, by norm_num,
    c9_high_risk_nonempty exampleTable 75 (by with_unfolding_all decide)
      (by with_unfolding_all decide) (by norm_num) (by norm_num)⟩
